import Mathlib

/-!
Verification development for the Wkeynhk/Scrapers repository
(src/RepackGames/RepackGames.py and src/AnkerGames/ankergames.py).

The Python sources are shallowly embedded below.  Pure functions become Lean
functions; the results of external library collaborators (the `re` regex
engine on free-form page text, BeautifulSoup DOM queries, Playwright locator
queries, the network transport) are passed in as explicit structured inputs,
mirroring exactly the data the source reads from them.  Machine integers are
Nat/Int (Python ints are unbounded, so no wraparound is modelled).  Code that
can raise returns Option/Except.
-/

namespace Scrapers

/- ===================== Calendar / datetime library model ===================== -/

/-- Library model of Python's Gregorian leap-year rule, used by the `datetime`
module that both scrapers rely on. -/
def isLeap (y : Int) : Prop :=
  (y % 4 = 0 ∧ ¬ y % 100 = 0) ∨ y % 400 = 0

instance (y : Int) : Decidable (isLeap y) := by
  unfold isLeap
  infer_instance

/-- Library model of the month-length table used by `datetime` for constructor
validation (`_DAYS_IN_MONTH` plus the leap-year adjustment for February). -/
def days_in_month_tbl (y : Int) (m : Nat) : Int :=
  if m = 2 then (if isLeap y then 29 else 28)
  else if m = 1 ∨ m = 3 ∨ m = 5 ∨ m = 7 ∨ m = 8 ∨ m = 10 ∨ m = 12 then 31
  else if m = 4 ∨ m = 6 ∨ m = 9 ∨ m = 11 then 30
  else 0

/-- Library model: days in all years strictly before year `y`
(proleptic Gregorian, as in `datetime.date.toordinal`). -/
def days_before_year (y : Int) : Int :=
  365 * (y - 1) + (y - 1) / 4 - (y - 1) / 100 + (y - 1) / 400

/-- Cumulative day counts before each month in a non-leap year
(the `datetime` module's `_DAYS_BEFORE_MONTH`). -/
def dbm_base : Nat → Int
  | 1 => 0 | 2 => 31 | 3 => 59 | 4 => 90 | 5 => 120 | 6 => 151
  | 7 => 181 | 8 => 212 | 9 => 243 | 10 => 273 | 11 => 304 | 12 => 334
  | _ => 0

/-- Library model: days in year `y` strictly before month `m`. -/
def days_before_month (y : Int) (m : Nat) : Int :=
  dbm_base m + (if 2 < m ∧ isLeap y then 1 else 0)

/-- Library model of `datetime.date.toordinal`: day number of `y-m-d`,
with day 1 = 0001-01-01. -/
def toordinal (y : Int) (m d : Nat) : Int :=
  days_before_year y + days_before_month y m + (d : Int)

/-- Library model of the `datetime` constructor's validity check: the
constructor raises ValueError outside these bounds. -/
def mk_valid (y : Int) (m d : Nat) : Prop :=
  1 ≤ y ∧ y ≤ 9999 ∧ 1 ≤ m ∧ m ≤ 12 ∧ 1 ≤ d ∧ (d : Int) ≤ days_in_month_tbl y m

instance (y : Int) (m d : Nat) : Decidable (mk_valid y m d) := by
  unfold mk_valid
  infer_instance

/-- A Python `datetime.datetime` value.  `tzinfo` is `none` for naive
datetimes and `some off` for an aware datetime with a fixed UTC offset of
`off` minutes (the only tzinfo the sources use is `timezone.utc`, offset 0). -/
structure PyDateTime where
  year : Int
  month : Nat
  day : Nat
  hour : Nat
  minute : Nat
  second : Nat
  microsecond : Nat
  tzinfo : Option Int
deriving DecidableEq

/-- A structurally valid `datetime` value (the invariant the `datetime`
constructor enforces). -/
def ValidDT (dt : PyDateTime) : Prop :=
  1 ≤ dt.year ∧ dt.year ≤ 9999 ∧ 1 ≤ dt.month ∧ dt.month ≤ 12 ∧
  1 ≤ dt.day ∧ (dt.day : Int) ≤ days_in_month_tbl dt.year dt.month ∧
  dt.hour ≤ 23 ∧ dt.minute ≤ 59 ∧ dt.second ≤ 59 ∧ dt.microsecond ≤ 999999

instance (dt : PyDateTime) : Decidable (ValidDT dt) := by
  unfold ValidDT
  infer_instance

/-- Library model of `datetime.replace(year=y, month=m, day=d)`: the changed
fields are re-validated; out-of-range values raise ValueError (`none`). -/
def dt_replace_ymd (dt : PyDateTime) (y : Int) (m d : Nat) : Option PyDateTime :=
  if mk_valid y m d then
    some { dt with year := y, month := m, day := d }
  else none

/-- Microseconds per day. -/
def usPerDay : Int := 86400000000

/-- Microseconds elapsed since midnight of a datetime's day. -/
def time_of_day_us (dt : PyDateTime) : Int :=
  ((dt.hour * 3600 + dt.minute * 60 + dt.second) * 1000000 + dt.microsecond : Nat)

/-- Library model of the civil-from-day-number conversion used by the
`datetime` module (argument: days since 1970-01-01; result `(y, m, d)`). -/
def civil_from_days (z0 : Int) : Int × Nat × Nat :=
  let z := z0 + 719468
  let era := z / 146097
  let doe := z - era * 146097
  let yoe := (doe - doe / 1460 + doe / 36524 - doe / 146096) / 365
  let y := yoe + era * 400
  let doy := doe - (365 * yoe + yoe / 4 - yoe / 100)
  let mp := (5 * doy + 2) / 153
  let d := doy - (153 * mp + 2) / 5 + 1
  let m := if mp < 10 then mp + 3 else mp - 9
  (if m ≤ 2 then y + 1 else y, m.toNat, d.toNat)

/-- Civil date from a `toordinal`-style ordinal (ordinal 1 = 0001-01-01). -/
def civil_from_ordinal (ord : Int) : Int × Nat × Nat :=
  civil_from_days (ord - 719163)

/-- Library model of `datetime - timedelta` (the timedelta given in
microseconds).  Results outside `datetime.min .. datetime.max` raise
OverflowError (`none`).  The tzinfo is carried over unchanged, as in Python. -/
def dt_sub (dt : PyDateTime) (deltaUs : Int) : Option PyDateTime :=
  let total : Int :=
    (toordinal dt.year dt.month dt.day - 1) * usPerDay + time_of_day_us dt - deltaUs
  let days := total / usPerDay
  let rem := total % usPerDay
  let ord := days + 1
  if 1 ≤ ord ∧ ord ≤ 3652059 then
    match civil_from_ordinal ord with
    | (y, m, d) =>
      let us := rem % 1000000
      let secs := rem / 1000000
      let s := secs % 60
      let mins := secs / 60
      let mi := mins % 60
      let h := mins / 60
      some ⟨y, m, d, h.toNat, mi.toNat, s.toNat, us.toNat, dt.tzinfo⟩
  else none

/-- The character for a single decimal digit `d < 10`. -/
def digitChar (d : Nat) : Char := Char.ofNat (48 + d)

/-- Fixed-width zero-padded decimal rendering of `n` (library model of the
`%0wd`-style formatting used by `strftime` and `isoformat`; faithful for
`n < 10 ^ w`, which the datetime validity bounds guarantee). -/
def padNat (w n : Nat) : String :=
  String.mk (((List.range w).reverse).map (fun i => digitChar (n / 10 ^ i % 10)))

/-- Library model of `datetime.isoformat()` on a naive datetime: the
fractional-seconds part is present exactly when `microsecond` is nonzero. -/
def isoformat (dt : PyDateTime) : String :=
  padNat 4 dt.year.toNat ++ "-" ++ padNat 2 dt.month ++ "-" ++ padNat 2 dt.day ++ "T" ++
  padNat 2 dt.hour ++ ":" ++ padNat 2 dt.minute ++ ":" ++ padNat 2 dt.second ++
  (if dt.microsecond = 0 then "" else "." ++ padNat 6 dt.microsecond)

/-- Library model of `dt.strftime("%Y-%m-%dT%H:%M:%S.000Z")`. -/
def strf_iso_ms_z (dt : PyDateTime) : String :=
  padNat 4 dt.year.toNat ++ "-" ++ padNat 2 dt.month ++ "-" ++ padNat 2 dt.day ++ "T" ++
  padNat 2 dt.hour ++ ":" ++ padNat 2 dt.minute ++ ":" ++ padNat 2 dt.second ++ ".000Z"

/-- Character-template matcher: in the template, `n` stands for one decimal
digit and every other character stands for itself. -/
def matchesTmpl : List Char → List Char → Bool
  | [], [] => true
  | p :: t, c :: cs => (if p = 'n' then c.isDigit else p == c) && matchesTmpl t cs
  | _, _ => false

/-- Checks the shape required by the spec for `uploadDate`: an ISO-8601 UTC
timestamp with millisecond precision and a trailing Z. -/
def isIsoUtcMsZ (s : String) : Bool :=
  matchesTmpl "nnnn-nn-nnTnn:nn:nn.nnnZ".toList s.toList

/- ===================== AnkerGames (src/AnkerGames/ankergames.py) ===================== -/

/-- The `DownloadItem` dataclass of ankergames.py. -/
structure DownloadItem where
  title : String
  uris : List String
  uploadDate : String
  fileSize : String
  repackLinkSource : String
deriving DecidableEq

/-- Embeds `_days_in_month` of ankergames.py: the day count of month `m` of
year `y`, computed by subtracting `datetime(y, m, 1)` from the first of the
following month.  Returns `none` when one of the two `datetime` constructor
calls raises ValueError (which happens for `y + 1 > 9999` when `m = 12`, and
for `y < 1`). -/
def _days_in_month (y : Int) (m : Nat) : Option Int :=
  if m = 12 then
    if mk_valid (y + 1) 1 1 ∧ mk_valid y 12 1 then
      some (toordinal (y + 1) 1 1 - toordinal y 12 1)
    else none
  else
    if mk_valid y (m + 1) 1 ∧ mk_valid y m 1 then
      some (toordinal y (m + 1) 1 - toordinal y m 1)
    else none

/-- Embeds `subtract_months` of ankergames.py.  `month_index` uses Python
floor division and modulo (divisor 12 is positive, so Lean's Int `/` and `%`
agree with Python).  Returns `none` when `_days_in_month` or `dt.replace`
raises. -/
def subtract_months (dt : PyDateTime) (months : Int) : Option PyDateTime :=
  let month_index : Int := (dt.year * 12 + ((dt.month : Int) - 1)) - months
  let new_year : Int := month_index / 12
  let new_month : Nat := (month_index % 12 + 1).toNat
  match _days_in_month new_year new_month with
  | none => none
  | some max_day =>
    let new_day : Nat := min dt.day max_day.toNat
    dt_replace_ymd dt new_year new_month new_day

/-- Embeds `to_iso_utc` of ankergames.py.  A naive datetime gets
`tzinfo = utc` attached without changing its civil fields; an aware datetime
is converted to UTC (`astimezone` leaves the fields unchanged when the offset
is already 0, otherwise it shifts by the offset and can raise near the
supported range's edges).  The result is formatted with
`strftime("%Y-%m-%dT%H:%M:%S.000Z")`. -/
def to_iso_utc (dt : PyDateTime) : Except Unit String :=
  match dt.tzinfo with
  | none => .ok (strf_iso_ms_z { dt with tzinfo := some 0 })
  | some off =>
    if off = 0 then .ok (strf_iso_ms_z dt)
    else
      match dt_sub dt (off * 60000000) with
      | some u => .ok (strf_iso_ms_z { u with tzinfo := some 0 })
      | none => .error ()

/-- The data `scrape_game` of ankergames.py reads from one leaf page through
its Playwright-based helpers, passed in as structured inputs:
`title` is the `extract_title` result (a plain string, possibly empty);
`lastUpdatedMonths` / `publishedMonths` are the captures of the
`last\\s*updated[^\\d]*(\\d+)\\s+month` and `published\\s*on[^\\d]*(\\d+)\\s+month`
regex searches over the lowered page HTML in `extract_last_updated_iso`;
`fileSize` is the `extract_file_size` result; `downloadLink` the
`extract_download_link` result. -/
structure AnkerLeafData where
  title : String
  lastUpdatedMonths : Option Nat
  publishedMonths : Option Nat
  fileSize : Option String
  downloadLink : Option String
deriving DecidableEq

/-- Embeds `extract_last_updated_iso` of ankergames.py: prefers the
"Last Updated - N months ago" capture, falls back to "Published on, N months
ago", and converts via `subtract_months` on the current UTC time followed by
`to_iso_utc`.  A ValueError raised by `subtract_months` propagates
(`.error`). -/
def extract_last_updated_iso (d : AnkerLeafData) (now : PyDateTime) :
    Except Unit (Option String) :=
  match d.lastUpdatedMonths with
  | some m =>
    match subtract_months now (m : Int) with
    | some dt => (to_iso_utc dt).map some
    | none => .error ()
  | none =>
    match d.publishedMonths with
    | some m =>
      match subtract_months now (m : Int) with
      | some dt => (to_iso_utc dt).map some
      | none => .error ()
    | none => .ok none

/-- Embeds `scrape_game` of ankergames.py (the part after the page loads):
falsy title / upload date / file size become the empty string, a falsy
download link yields an empty `uris` list, and a `DownloadItem` is returned
unconditionally — there is no filtering on `uris` being non-empty.
Exceptions from `extract_last_updated_iso` propagate to the caller. -/
def scrape_game (d : AnkerLeafData) (now : PyDateTime) (game_url : String) :
    Except Unit DownloadItem :=
  match extract_last_updated_iso d now with
  | .error e => .error e
  | .ok upload_iso =>
    let title := if d.title = "" then "" else d.title
    let uploadDate := match upload_iso with
      | none => ""
      | some s => if s = "" then "" else s
    let fileSize := match d.fileSize with
      | none => ""
      | some s => if s = "" then "" else s
    let uris : List String := match d.downloadLink with
      | none => []
      | some h => if h = "" then [] else [h]
    .ok { title := title, uris := uris, uploadDate := uploadDate,
          fileSize := fileSize, repackLinkSource := game_url }

/-- Embeds the result-collection loop of `main` in ankergames.py: each leaf's
`scrape_game` call either returns an item (appended unconditionally — a
dataclass instance is always truthy, so `if item:` never filters) or raises,
in which case the failure is printed and the leaf is skipped. -/
def anker_collect : List (Except Unit DownloadItem) → List DownloadItem
  | [] => []
  | .ok item :: rest => item :: anker_collect rest
  | .error _ :: rest => anker_collect rest

/- ===================== RepackGames (src/RepackGames/RepackGames.py) ===================== -/

/-- A record produced by `parse_game_info` of RepackGames.py (the dict with
keys title / uris / fileSize / uploadDate / repackLinkSource).  `uploadDate`
is `Option String` because the Python dict can hold `None` there. -/
structure Record where
  title : String
  uris : List String
  fileSize : String
  uploadDate : Option String
  repackLinkSource : String
deriving DecidableEq

/-- One observable event of `get_page_content`: acquiring or releasing the
shared semaphore slot, sleeping for a number of milliseconds, or issuing
attempt number `i` of the HTTP request with its per-attempt timeout in
milliseconds. -/
inductive FetchEvent where
  | acquire
  | sleep (ms : Nat)
  | attempt (i : Nat) (timeoutMs : Nat)
  | release
deriving DecidableEq

/-- The retry loop of `get_page_content` (`for attempt in range(3)`), driven
by an oracle giving each attempt's outcome (`some text` = the request
succeeded with that body, `none` = it raised).  `i` is the current attempt
index and `remaining` how many loop iterations are left.  Every attempt is
preceded by `asyncio.sleep(0.01)`; a failed attempt other than the last is
followed by `asyncio.sleep(0.15)`; each attempt carries the 12-second
`ClientTimeout`.  Returns the event trace and the result (`none` after all
attempts fail). -/
def fetch_attempts (oracle : Nat → Option String) :
    Nat → Nat → List FetchEvent × Option String
  | _, 0 => ([], none)
  | i, r + 1 =>
    match oracle i with
    | some content => ([.sleep 10, .attempt i 12000], some content)
    | none =>
      if r = 0 then
        ([.sleep 10, .attempt i 12000], none)
      else
        let rest := fetch_attempts oracle (i + 1) r
        (.sleep 10 :: .attempt i 12000 :: .sleep 150 :: rest.1, rest.2)

/-- Embeds `get_page_content` of RepackGames.py: the whole retry loop runs
inside `async with self.semaphore`, so the trace starts by acquiring one
slot and ends by releasing it — unconditionally, on success and failure
alike. -/
def get_page_content (oracle : Nat → Option String) : List FetchEvent × Option String :=
  let body := fetch_attempts oracle 0 3
  (.acquire :: body.1 ++ [.release], body.2)

/-- State of the shared `asyncio.Semaphore`: free slots and fetches currently
holding a slot (in flight). -/
structure LimiterState where
  available : Nat
  inFlight : Nat
deriving DecidableEq

/-- Semantics of the `asyncio.Semaphore` in RepackGames.py: a fetch may start
(acquire) only when a slot is free, and finishing a fetch releases its slot.
Every `get_page_content` call is bracketed by exactly one acquire/release
pair (see the trace theorems), so `inFlight` counts the simultaneous
fetches. -/
inductive LimiterStep : LimiterState → LimiterState → Prop where
  | acquire (s : LimiterState) (h : 0 < s.available) :
      LimiterStep s ⟨s.available - 1, s.inFlight + 1⟩
  | release (s : LimiterState) (h : 0 < s.inFlight) :
      LimiterStep s ⟨s.available + 1, s.inFlight - 1⟩

/-- The semaphore's initial state for a configured ceiling
(`asyncio.Semaphore(max_concurrent)`, default 160). -/
def initState (ceiling : Nat) : LimiterState := ⟨ceiling, 0⟩

/-- States reachable from the initial semaphore state by any interleaving of
acquires and releases. -/
inductive ReachableLim (ceiling : Nat) : LimiterState → Prop where
  | init : ReachableLim ceiling (initState ceiling)
  | step {s t : LimiterState} :
      ReachableLim ceiling s → LimiterStep s t → ReachableLim ceiling t

/-- Bool test that `pat` occurs as a contiguous run of the list. -/
def listHasInfix (pat : List Char) : List Char → Bool
  | [] => pat.isEmpty
  | c :: cs => pat.isPrefixOf (c :: cs) || listHasInfix pat cs

/-- Python's `in` on strings: substring test. -/
def containsStr (s pat : String) : Bool :=
  listHasInfix pat.toList s.toList

/-- Python's `str.strip()`: removes leading and trailing whitespace. -/
def pystrip (s : String) : String :=
  String.mk (((s.toList.dropWhile Char.isWhitespace).reverse.dropWhile
    Char.isWhitespace).reverse)

deriving instance DecidableEq for Except

/-- One `<article>` of a listing page, as the link extraction reads it:
`titleHref` is the href of the `<a>` inside `h2.article-title` (if both
exist), `allHrefs` all hrefs of `<a href>` descendants in page order. -/
structure RGArticle where
  titleHref : Option String
  allHrefs : List String
deriving DecidableEq

/-- The parts of a listing page's `div.wrap-content` that RepackGames.py
reads: the text of `div.article-btn` (for the 404 test), the articles of
`div.articles-content`, the first-anchor hrefs of the `ul.modern-articles`
items, and all `<article>` descendants (third fallback). -/
structure RGWrapContent where
  articleBtnText : Option String
  articlesContent : Option (List RGArticle)
  modernArticles : Option (List (Option String))
  allArticles : List RGArticle
deriving DecidableEq

/-- A parsed listing page (BeautifulSoup model): its `div.wrap-content` (if
any) and the text of `div.wp-pagenavi span.pages` (if both nodes exist). -/
structure ListingSoup where
  wrapContent : Option RGWrapContent
  pagesText : Option String
deriving DecidableEq

/-- Embeds `is_404_page` of RepackGames.py.  A falsy `html_content` (`None`
or the empty string) is classified as a 404 up front; otherwise the page is
parsed and the answer is whether `div.wrap-content` holds a `div.article-btn`
whose text contains "Error 404". -/
def is_404_page (html : Option String) (parseListing : String → ListingSoup) : Bool :=
  match html with
  | none => true
  | some s =>
    if s = "" then true
    else
      match (parseListing s).wrapContent with
      | none => false
      | some w =>
        match w.articleBtnText with
        | none => false
        | some t => containsStr t "Error 404"

/-- The href filter shared by the first two extraction ways in
`extract_game_links_from_category`. -/
def valid_game_href (h : String) : Bool :=
  "https://repack-games.com/".isPrefixOf h &&
  !containsStr h "/category/" &&
  !containsStr h "/author/"

/-- Embeds `extract_game_links_from_category` of RepackGames.py: three
fallback strategies tried in order — article titles inside
`div.articles-content`, then `ul.modern-articles` items, then the first
acceptable link of every `<article>` (this last one additionally excludes
hrefs containing "/?p="). -/
def extract_game_links_from_category (soup : ListingSoup) : List String :=
  match soup.wrapContent with
  | none => []
  | some w =>
    let links1 : List String :=
      match w.articlesContent with
      | some arts =>
        arts.foldl
          (fun acc a => match a.titleHref with
            | some h => if valid_game_href h then acc ++ [h] else acc
            | none => acc) []
      | none => []
    let links2 : List String :=
      if links1 = [] then
        match w.modernArticles with
        | some lis =>
          lis.foldl
            (fun acc li => match li with
              | some h => if valid_game_href h then acc ++ [h] else acc
              | none => acc) []
        | none => []
      else links1
    if links2 = [] then
      w.allArticles.foldl
        (fun acc a =>
          match a.allHrefs.find? (fun h => valid_game_href h && !containsStr h "/?p=") with
          | some h => acc ++ [h]
          | none => acc) []
    else links2

/-- Longest digit run at the head of a character list, with the remainder. -/
def takeDigits : List Char → List Char × List Char
  | [] => ([], [])
  | c :: cs =>
    if c.isDigit then
      let rest := takeDigits cs
      (c :: rest.1, rest.2)
    else ([], c :: cs)

/-- Decimal value of a digit run (Python `int`). -/
def natOfDigits (ds : List Char) : Nat :=
  ds.foldl (fun n c => 10 * n + (c.toNat - 48)) 0

/-- Tries to match the regex `Page \\d+ of (\\d+)` anchored at this position,
returning the captured group as a number. -/
def matchPageOfAt (cs : List Char) : Option Nat :=
  if "Page ".toList.isPrefixOf cs then
    let afterLit := cs.drop 5
    let d1 := takeDigits afterLit
    if d1.1 = [] then none
    else if " of ".toList.isPrefixOf d1.2 then
      let d2 := takeDigits (d1.2.drop 4)
      if d2.1 = [] then none else some (natOfDigits d2.1)
    else none
  else none

/-- Leftmost search for `Page \\d+ of (\\d+)` (the behaviour of `re.search`
for this pattern: greedy digit runs cannot backtrack across the literal
separators, so leftmost-longest coincides with this scan). -/
def searchPageOf : List Char → Option Nat
  | [] => none
  | c :: cs =>
    match matchPageOfAt (c :: cs) with
    | some n => some n
    | none => searchPageOf cs

/-- Embeds `get_total_pages_from_pagination` of RepackGames.py: the
"Page X of N" marker parsed from the `wp-pagenavi` pages span, or `none`
when the span is missing or carries no marker. -/
def get_total_pages_from_pagination (soup : ListingSoup) : Option Nat :=
  match soup.pagesText with
  | none => none
  | some t => searchPageOf t.toList

/-- The page ceiling of `parse_category_with_pagination`: the marker value
when present and truthy (Python `if total_pages:` treats 0 as absent),
otherwise the fallback probing ceiling 999. -/
def rg_max_pages (soup : ListingSoup) : Nat :=
  match get_total_pages_from_pagination soup with
  | some n => if n = 0 then 999 else n
  | none => 999

/-- Strips every character outside `[0-9.KMGTB+ ]` (the `re.sub` cleaning in
`parse_file_size`) from the already-stripped capture and strips whitespace
again. -/
def size_clean (s : String) : String :=
  pystrip (String.mk ((pystrip s).toList.filter
    (fun c => c.isDigit || c == '.' || c == 'K' || c == 'M' || c == 'G' ||
              c == 'T' || c == 'B' || c == '+' || c == ' ')))

/-- The pattern loop of `parse_file_size`: each entry is the capture of one
of the three size regexes over the game-info text (`none` = no match); the
first match whose cleaned form is non-empty is returned, otherwise
"Unknown". -/
def pfs_loop : List (Option String) → String
  | [] => "Unknown"
  | none :: rest => pfs_loop rest
  | some g :: rest =>
    let size := size_clean g
    if size ≠ "" then size else pfs_loop rest

/-- Embeds `parse_file_size` of RepackGames.py: "Unknown" when there is no
`div.game-info` at all, otherwise the pattern loop over the regex captures
on its text. -/
def parse_file_size (game_info : Option (List (Option String))) : String :=
  match game_info with
  | none => "Unknown"
  | some ms => pfs_loop ms

/-- The two-digit-year adjustment applied to a strptime result in
`parse_date_info`. -/
def adjust_year (y : Int) : Int :=
  if y < 30 then y + 2000
  else if y < 100 then (if y < 50 then y + 2000 else y + 1900)
  else y

/-- The time unit of a matched relative-date phrase in `parse_date_info`. -/
inductive RelUnit where
  | years | months | weeks | days | hours | minutes | seconds
deriving DecidableEq

/-- The `timedelta` built for a relative phrase, in microseconds: years count
as 365 days, months as 30 days, weeks as 7 days. -/
def relDeltaUs (v : Nat) : RelUnit → Int
  | .years => (v * 365 : Nat) * 86400000000
  | .months => (v * 30 : Nat) * 86400000000
  | .weeks => (v * 7 : Nat) * 86400000000
  | .days => (v : Nat) * 86400000000
  | .hours => (v : Nat) * 3600000000
  | .minutes => (v : Nat) * 60000000
  | .seconds => (v : Nat) * 1000000

/-- What `parse_game_info` reads from `div.game-info` through the regex
library: the captures of the three size patterns of `parse_file_size`, and
the first successful strptime result over the date patterns and formats of
`parse_date_info` (raw year, month, day — date-only formats, so the time
fields are zero). -/
structure GameInfoData where
  sizeMatches : List (Option String)
  absDateParsed : Option (Int × Nat × Nat)
deriving DecidableEq

/-- One download button (`a.gp-download-buttons` or `a.enjoy-css`) of a game
page, with the result of the TORRENT-context walk over its preceding
siblings and its href attribute. -/
structure DLButton where
  contextHasTorrent : Bool
  href : Option String
deriving DecidableEq

/-- A parsed game page (BeautifulSoup model) as `parse_game_info` reads it:
the `h1.article-title.entry-title` text, the `div.game-info` data, the first
matching relative phrase of `div.time-article.updated` (value and unit;
`none` when the div is missing or no pattern matches), and the download
buttons in page order. -/
structure GameSoup where
  titleText : Option String
  gameInfo : Option GameInfoData
  relMatch : Option (Nat × RelUnit)
  downloadButtons : List DLButton
deriving DecidableEq

/-- The button loop of `extract_download_links`: the state machine that skips
the first link under a TORRENT section, plus the falsy-href test and the
within-record deduplication (`href not in download_links`). -/
def edl_loop : List DLButton → Bool → List String → List String
  | [], _, acc => acc
  | b :: rest, is_torrent_section, acc =>
    if b.contextHasTorrent then
      if ¬ is_torrent_section then
        edl_loop rest true acc
      else
        let acc2 := match b.href with
          | some h => if h ≠ "" ∧ h ∉ acc then acc ++ [h] else acc
          | none => acc
        edl_loop rest false acc2
    else
      let acc2 := match b.href with
        | some h => if h ≠ "" ∧ h ∉ acc then acc ++ [h] else acc
        | none => acc
      edl_loop rest false acc2

/-- Embeds `extract_download_links` of RepackGames.py. -/
def extract_download_links (buttons : List DLButton) : List String :=
  edl_loop buttons false []

/-- The collaborators of one RepackGames crawl, as oracles: `fetch` is the
per-URL result of `get_page_content` (`none` after all retries fail),
`parseListing` / `parseGame` are BeautifulSoup on listing and game pages,
and `now` is the `datetime.now()` (naive) used by the relative-date
fallback. -/
structure RGOracles where
  fetch : String → Option String
  parseListing : String → ListingSoup
  parseGame : String → GameSoup
  now : PyDateTime

/-- Embeds `parse_date_info` of RepackGames.py: first the absolute-date path
over the game-info text (strptime result, two-digit-year adjustment,
`isoformat() + ".000Z"`), then the relative path over the time-article text
(`datetime.now() - timedelta`, again `isoformat() + ".000Z"`); `none` when
neither yields a date.  An OverflowError from the subtraction propagates
(`.error`). -/
def parse_date_info (g : GameSoup) (now : PyDateTime) : Except Unit (Option String) :=
  let upload1 : Option String :=
    match g.gameInfo with
    | none => none
    | some gi =>
      match gi.absDateParsed with
      | none => none
      | some (y, m, d) =>
        some (isoformat ⟨adjust_year y, m, d, 0, 0, 0, 0, none⟩ ++ ".000Z")
  match upload1 with
  | some u => .ok (some u)
  | none =>
    match g.relMatch with
    | none => .ok none
    | some (v, unit) =>
      match dt_sub now (relDeltaUs v unit) with
      | none => .error ()
      | some calcDt => .ok (some (isoformat calcDt ++ ".000Z"))

/-- The body of `parse_game_info` of RepackGames.py before its catch-all
`except`: falsy page content yields `None`; a missing title becomes
"Unknown Title"; the file size and upload date come from their helpers; and
a record with an empty download-link list is replaced by `None`. -/
def parse_game_info_core (o : RGOracles) (game_url : String) :
    Except Unit (Option Record) :=
  match o.fetch game_url with
  | none => .ok none
  | some html =>
    if html = "" then .ok none
    else
      let soup := o.parseGame html
      let title := match soup.titleText with
        | some t => pystrip t
        | none => "Unknown Title"
      let file_size := parse_file_size (soup.gameInfo.map (fun gi => gi.sizeMatches))
      match parse_date_info soup o.now with
      | .error e => .error e
      | .ok upload_date =>
        let download_links := extract_download_links soup.downloadButtons
        if download_links = [] then .ok none
        else
          .ok (some { title := title, uris := download_links,
                      fileSize := file_size, uploadDate := upload_date,
                      repackLinkSource := game_url })

/-- Embeds `parse_game_info` of RepackGames.py: any exception inside the body
is caught, printed, and turned into `None`. -/
def parse_game_info (o : RGOracles) (game_url : String) : Option Record :=
  match parse_game_info_core o game_url with
  | .ok r => r
  | .error _ => none

/-- The URL fetched for page `page` of a category
(`category_url` for page 1, `category_url + "page/N/"` otherwise). -/
def page_url (category_url : String) (page : Nat) : String :=
  if page = 1 then category_url
  else category_url ++ "page/" ++ toString page ++ "/"

/-- Embeds `parse_category_page_and_games` of RepackGames.py: fetch the
listing page, return `[]` on a 404 (which includes any failed fetch), extract
the game links, and parse every linked game page, keeping the successful
(dict) results. -/
def parse_category_page_and_games (o : RGOracles) (category_url : String) (page : Nat) :
    List Record :=
  let html := o.fetch (page_url category_url page)
  if is_404_page html o.parseListing then []
  else
    match html with
    | none => []
    | some s =>
      let game_links := extract_game_links_from_category (o.parseListing s)
      if game_links = [] then []
      else game_links.filterMap (parse_game_info o)

/-- Embeds `parse_category_with_pagination` of RepackGames.py: a falsy first
page aborts the category with zero records; otherwise the page ceiling comes
from the pagination marker (fallback 999), the first page's games are parsed
from the already-fetched content, and pages `2 .. max_pages` are all
launched and their results concatenated (completion order abstracted to page
order; the claims proved below are order-insensitive). -/
def parse_category_with_pagination (o : RGOracles) (category_url : String) :
    List Record :=
  match o.fetch category_url with
  | none => []
  | some html =>
    if html = "" then []
    else
      let soup := o.parseListing html
      let max_pages := rg_max_pages soup
      let games_from_page := extract_game_links_from_category soup
      let page1 := games_from_page.filterMap (parse_game_info o)
      let rest :=
        if 1 < max_pages then
          ((List.range' 2 (max_pages - 1)).map
            (parse_category_page_and_games o category_url)).flatten
        else []
      page1 ++ rest

/-- Instrumentation of `parse_category_with_pagination`: the listing-page
numbers whose URLs are passed to `get_page_content` during one category
crawl.  Page 1 is always fetched; when its content is truthy, pages
`2 .. max_pages` are all launched regardless of where not-found pages
start. -/
def category_pages_fetched (o : RGOracles) (category_url : String) : List Nat :=
  match o.fetch category_url with
  | none => [1]
  | some html =>
    if html = "" then [1]
    else
      let max_pages := rg_max_pages (o.parseListing html)
      1 :: (if 1 < max_pages then List.range' 2 (max_pages - 1) else [])

/-- Embeds the aggregation loop of `parse_all_categories` of RepackGames.py:
`asyncio.gather(..., return_exceptions=True)` hands back one entry per
category — either its record list or the exception it raised; lists are
concatenated onto `games_data` in order, exceptions are printed and
skipped.  No deduplication of any kind is performed. -/
def parse_all_categories_collect : List (Except String (List Record)) → List Record
  | [] => []
  | .ok l :: rest => l ++ parse_all_categories_collect rest
  | .error _ :: rest => parse_all_categories_collect rest

/-- The "file size could not be resolved from the leaf page" condition for a
RepackGames game page: either there is no `div.game-info`, or every size
pattern's capture cleans to the empty string. -/
def size_unresolved (gi : Option GameInfoData) : Prop :=
  match gi with
  | none => True
  | some g => ∀ x ∈ g.sizeMatches, ∀ s, x = some s → size_clean s = ""

/- ===================== Concrete fixtures ===================== -/

/-- A game page with one download button and no date information anywhere. -/
def gNoDateFix : GameSoup := ⟨some "T", none, none, [⟨false, some "http://dl"⟩]⟩

/-- Oracles for a crawl whose game pages are all `gNoDateFix`. -/
def oNoDateFix : RGOracles :=
  ⟨fun _ => some "HTML", fun _ => ⟨none, none⟩, fun _ => gNoDateFix,
   ⟨2026, 1, 1, 0, 0, 0, 0, none⟩⟩

/-- The record `parse_game_info` produces from `gNoDateFix`. -/
def recNoDate : Record := ⟨"T", ["http://dl"], "Unknown", none, "https://r/g"⟩

/-- A game page whose only date source is "2 seconds ago" in the
time-article. -/
def gRelFix : GameSoup := ⟨some "T", none, some (2, .seconds), [⟨false, some "http://dl"⟩]⟩

/-- Oracles whose `datetime.now()` carries nonzero microseconds
(2026-10-12 10:00:30.123456), as a real wall clock always does. -/
def oRelFix : RGOracles :=
  ⟨fun _ => some "HTML", fun _ => ⟨none, none⟩, fun _ => gRelFix,
   ⟨2026, 10, 12, 10, 0, 30, 123456, none⟩⟩

/-- The record `parse_game_info` produces from `gRelFix` under `oRelFix`. -/
def recRel : Record :=
  ⟨"T", ["http://dl"], "Unknown", some "2026-10-12T10:00:28.123456.000Z", "https://r/g"⟩

/-- A record two different categories can both produce (same leaf URL). -/
def recDup : Record := ⟨"A", ["u1"], "Unknown", none, "https://repack-games.com/dup/"⟩

/-- A live listing page: one game article, no pagination marker. -/
def liveSoup : ListingSoup :=
  ⟨some ⟨none, some [⟨some "https://repack-games.com/game-1/",
                      ["https://repack-games.com/game-1/"]⟩], none, []⟩, none⟩

/-- A not-found listing page (`article-btn` saying "Error 404"). -/
def deadSoup : ListingSoup := ⟨some ⟨some "Error 404 - Not Found", none, none, []⟩, none⟩

/-- A category whose pages 1–4 are live (no pagination marker) and whose
pages from 5 on are not-found pages. -/
def oC2Fix : RGOracles :=
  ⟨fun u => if u = "C/" ∨ u = "C/page/2/" ∨ u = "C/page/3/" ∨ u = "C/page/4/"
            then some "LIVE" else some "DEAD",
   fun s => if s = "LIVE" then liveSoup else deadSoup,
   fun _ => gNoDateFix, ⟨2026, 1, 1, 0, 0, 0, 0, none⟩⟩

/-- Oracles for a crawl where every fetch fails after all retries. -/
def oFailFix : RGOracles :=
  ⟨fun _ => none, fun _ => ⟨none, none⟩, fun _ => gNoDateFix,
   ⟨2026, 1, 1, 0, 0, 0, 0, none⟩⟩

/-- A UTC wall-clock instant used by the AnkerGames fixtures. -/
def nowUtcFix : PyDateTime := ⟨2026, 1, 1, 0, 0, 0, 0, some 0⟩

/-- An AnkerGames leaf page whose download link never appeared. -/
def dNoLinkFix : AnkerLeafData := ⟨"T", none, none, some "1 GB", none⟩

/-- The item `scrape_game` produces from `dNoLinkFix`: empty `uris`. -/
def ankerNoLinkItem : DownloadItem := ⟨"T", [], "", "1 GB", "https://a/g"⟩

/-- An AnkerGames leaf page whose file size could not be resolved. -/
def dNoSizeFix : AnkerLeafData := ⟨"T", none, none, none, some "https://dl/x"⟩

/-- The item `scrape_game` produces from `dNoSizeFix`: empty `fileSize`. -/
def ankerNoSizeItem : DownloadItem := ⟨"T", ["https://dl/x"], "", "", "https://a/g"⟩

/-- A valid datetime near the top of `datetime`'s supported range. -/
def dt9999Fix : PyDateTime := ⟨9999, 12, 15, 0, 0, 0, 0, some 0⟩

/-- Input for the C10 witness: 2026-10-12 01:02:03.000004 UTC. -/
def dtC10Fix : PyDateTime := ⟨2026, 10, 12, 1, 2, 3, 4, some 0⟩

/-- `subtract_months dtC10Fix 6`. -/
def dtC10Res : PyDateTime := ⟨2026, 4, 12, 1, 2, 3, 4, some 0⟩

/- ===================== Helper lemmas ===================== -/

theorem collect_cons (r : Except String (List Record))
    (rest : List (Except String (List Record))) :
    parse_all_categories_collect (r :: rest) =
      (match r with | .ok l => l | .error _ => []) ++ parse_all_categories_collect rest := by
  cases r with
  | ok l => rfl
  | error e => simp [parse_all_categories_collect]

theorem anker_collect_cons (r : Except Unit DownloadItem)
    (rest : List (Except Unit DownloadItem)) :
    anker_collect (r :: rest) =
      (match r with | .ok item => [item] | .error _ => []) ++ anker_collect rest := by
  cases r with
  | ok item => rfl
  | error e => simp [anker_collect]

/- ===================== Claim C1 ===================== -/

/-- Claim C1 counterexample: two categories (two crawl paths) each produce a
record for the same leaf `https://repack-games.com/dup/`, and the final set
assembled by `parse_all_categories` keeps both — so the output does NOT
contain at most one record per `sourceURL`; no deduplication happens. -/
theorem claim_C1_cex :
    (parse_all_categories_collect [Except.ok [recDup], Except.ok [recDup]]).countP
      (fun r => r.repackLinkSource == "https://repack-games.com/dup/") = 2 := by
  decide

/-- Claim C1 (amended): the final record set returned by the run is the plain
concatenation of the successful categories' record lists — for every
predicate, the number of matching records in the output is the sum over the
categories, so records with identical `sourceURL` all survive and no
deduplication step exists. -/
theorem claim_C1_amended (results : List (Except String (List Record)))
    (p : Record → Bool) :
    (parse_all_categories_collect results).countP p =
      (results.map (fun r => match r with | .ok l => l.countP p | .error _ => 0)).sum := by
  induction results with
  | nil => simp [parse_all_categories_collect]
  | cons r rest ih =>
    rw [collect_cons]
    cases r with
    | ok l => simp [List.countP_append, ih]
    | error e => simp [List.countP_append, ih]

/- ===================== Claim C2 ===================== -/

/-- Claim C2 counterexample: a category with no page-count marker whose pages
1–4 are live and whose page 5 (and beyond) matches the not-found predicate —
yet page 6 is still fetched: the crawler launches pages 2..999 in parallel
and never stops at the first not-found page. -/
theorem claim_C2_cex :
    is_404_page (oC2Fix.fetch (page_url "C/" 5)) oC2Fix.parseListing = true ∧
    is_404_page (oC2Fix.fetch (page_url "C/" 6)) oC2Fix.parseListing = true ∧
    is_404_page (oC2Fix.fetch (page_url "C/" 1)) oC2Fix.parseListing = false ∧
    is_404_page (oC2Fix.fetch (page_url "C/" 4)) oC2Fix.parseListing = false ∧
    get_total_pages_from_pagination liveSoup = none ∧
    6 ∈ category_pages_fetched oC2Fix "C/" := by
  decide

/-- Claim C2 (amended): when the first listing page carries no (truthy)
page-count marker, the Category Crawler fetches pages 1 through the probing
ceiling 999 regardless of where not-found pages begin; a page matching the
not-found predicate merely contributes zero records. -/
theorem claim_C2_amended (o : RGOracles) (url html : String)
    (hf : o.fetch url = some html) (hne : html ≠ "")
    (hmark : get_total_pages_from_pagination (o.parseListing html) = none ∨
             get_total_pages_from_pagination (o.parseListing html) = some 0) :
    category_pages_fetched o url = 1 :: List.range' 2 998 ∧
    ∀ page, is_404_page (o.fetch (page_url url page)) o.parseListing = true →
      parse_category_page_and_games o url page = [] := by
  constructor
  · unfold category_pages_fetched
    rw [hf]
    simp only [hne, if_false, reduceIte]
    rcases hmark with hm | hm <;> simp [rg_max_pages, hm]
  · intro page h404
    simp [parse_category_page_and_games, h404]

/-- Claim C2 amended-theorem witness at the concrete C2 fixture. -/
theorem claim_C2_witness :
    category_pages_fetched oC2Fix "C/" = 1 :: List.range' 2 998 ∧
    parse_category_page_and_games oC2Fix "C/" 7 = [] := by
  have h := claim_C2_amended oC2Fix "C/" "LIVE" rfl (by decide) (Or.inl (by decide))
  exact ⟨h.1, h.2 7 (by decide)⟩

/- ===================== Claim C6 ===================== -/

/-- Claim C6: failures are isolated at the category boundary — a category
entry that settled as an exception is skipped by the aggregation loop
without affecting any other category's records, and a category whose first
listing page never resolves returns zero records (so the run still
terminates with the remaining categories' results). -/
theorem claim_C6 :
    (∀ (res1 res2 : List (Except String (List Record))) (e : String),
      parse_all_categories_collect (res1 ++ Except.error e :: res2) =
        parse_all_categories_collect (res1 ++ res2)) ∧
    (∀ (o : RGOracles) (url : String), o.fetch url = none →
      parse_category_with_pagination o url = []) := by
  constructor
  · intro res1 res2 e
    induction res1 with
    | nil => simp [collect_cons]
    | cons r rest ih => simp only [List.cons_append, collect_cons, ih]
  · intro o url h
    simp [parse_category_with_pagination, h]

/-- Claim C6 witness: an exception in the middle of the run's results leaves
the surviving category's records intact, and a category whose first page
fetch fails is the empty list. -/
theorem claim_C6_witness :
    parse_all_categories_collect
        ([Except.ok [recDup]] ++ Except.error "boom" :: [Except.ok [recNoDate]]) =
      parse_all_categories_collect ([Except.ok [recDup]] ++ [Except.ok [recNoDate]]) ∧
    parse_category_with_pagination oFailFix
        "https://repack-games.com/category/action-games/" = [] := by
  exact ⟨claim_C6.1 [Except.ok [recDup]] [Except.ok [recNoDate]] "boom",
         claim_C6.2 oFailFix "https://repack-games.com/category/action-games/" rfl⟩

/- ===================== Claim C9 ===================== -/

/-- Claim C9: `is_404_page` classifies absent content as dead — it returns
true for `None` and for empty content, for every parser — and a listing page
whose fetch failed after all retries is handled exactly like a not-found
page: `parse_category_page_and_games` returns zero game records and no
error. -/
theorem claim_C9 :
    (∀ parseListing : String → ListingSoup,
      is_404_page none parseListing = true ∧ is_404_page (some "") parseListing = true) ∧
    (∀ (o : RGOracles) (url : String) (page : Nat),
      o.fetch (page_url url page) = none →
        parse_category_page_and_games o url page = []) := by
  constructor
  · intro parseListing
    exact ⟨rfl, rfl⟩
  · intro o url page h
    simp [parse_category_page_and_games, h, is_404_page]

/-- Claim C9 witness at the all-fetches-fail fixture. -/
theorem claim_C9_witness :
    (is_404_page none oFailFix.parseListing = true ∧
      is_404_page (some "") oFailFix.parseListing = true) ∧
    parse_category_page_and_games oFailFix "https://repack-games.com/category/puzzle/" 3 = [] := by
  exact ⟨claim_C9.1 oFailFix.parseListing,
         claim_C9.2 oFailFix "https://repack-games.com/category/puzzle/" 3 rfl⟩

/- ===================== Claim C4 ===================== -/

theorem limiter_sum (ceiling : Nat) (s : LimiterState)
    (h : ReachableLim ceiling s) : s.available + s.inFlight = ceiling := by
  induction h with
  | init => simp [initState]
  | step hr hs ih =>
    cases hs with
    | acquire hpos => simp only [] at ih ⊢; omega
    | release hpos => simp only [] at ih ⊢; omega

theorem fetch_attempts_events (oracle : Nat → Option String) :
    ∀ (r i : Nat) (e : FetchEvent), e ∈ (fetch_attempts oracle i r).1 →
      (∃ ms, e = FetchEvent.sleep ms) ∨ ∃ a t, e = FetchEvent.attempt a t := by
  intro r
  induction r with
  | zero => intro i e he; simp [fetch_attempts] at he
  | succ r ih =>
    intro i e he
    unfold fetch_attempts at he
    cases horacle : oracle i with
    | some c =>
      rw [horacle] at he
      simp at he
      rcases he with h | h
      · exact Or.inl ⟨10, h⟩
      · exact Or.inr ⟨i, 12000, h⟩
    | none =>
      rw [horacle] at he
      by_cases hr : r = 0
      · subst hr
        simp at he
        rcases he with h | h
        · exact Or.inl ⟨10, h⟩
        · exact Or.inr ⟨i, 12000, h⟩
      · simp only [hr, if_false, reduceIte, List.mem_cons] at he
        rcases he with h | h | h | h
        · exact Or.inl ⟨10, h⟩
        · exact Or.inr ⟨i, 12000, h⟩
        · exact Or.inl ⟨150, h⟩
        · exact ih (i + 1) e h

/-- Claim C4: bounded concurrency.  First conjunct: under the semaphore
semantics (`LimiterStep`), every state reachable from the initial state with
the configured ceiling has at most `ceiling` fetches in flight — with the
default ceiling 160, never more than 160 simultaneous fetches.  Second
conjunct: every `get_page_content` call — the single fetch routine used for
listing and leaf pages across all categories — acquires one slot first,
releases it unconditionally as its last action, and touches the semaphore
nowhere else in between (all inner events are sleeps or request attempts),
for every outcome oracle, i.e. on success, failure, and exception alike. -/
theorem claim_C4 (ceiling : Nat) :
    (∀ s : LimiterState, ReachableLim ceiling s → s.inFlight ≤ ceiling) ∧
    (∀ oracle : Nat → Option String, ∃ mid : List FetchEvent,
      (get_page_content oracle).1 = FetchEvent.acquire :: mid ++ [FetchEvent.release] ∧
      ∀ e ∈ mid, e ≠ FetchEvent.acquire ∧ e ≠ FetchEvent.release) := by
  constructor
  · intro s h
    have := limiter_sum ceiling s h
    omega
  · intro oracle
    refine ⟨(fetch_attempts oracle 0 3).1, rfl, ?_⟩
    intro e he
    rcases fetch_attempts_events oracle 3 0 e he with ⟨ms, rfl⟩ | ⟨a, t, rfl⟩
    · exact ⟨by simp, by simp⟩
    · exact ⟨by simp, by simp⟩

/-- Claim C4 witness: the initial state with the default ceiling 160 obeys
the bound, and the trace discipline holds at a concrete oracle (a URL whose
every attempt fails). -/
theorem claim_C4_witness :
    (initState 160).inFlight ≤ 160 ∧
    ∃ mid : List FetchEvent,
      (get_page_content (fun _ => none)).1 =
        FetchEvent.acquire :: mid ++ [FetchEvent.release] ∧
      ∀ e ∈ mid, e ≠ FetchEvent.acquire ∧ e ≠ FetchEvent.release :=
  ⟨(claim_C4 160).1 (initState 160) ReachableLim.init,
   (claim_C4 160).2 (fun _ => none)⟩

/- ===================== Claim C5 ===================== -/

/-- Claim C5: the Fetcher makes at most 3 attempts, a 10 ms sleep precedes
every attempt, a 150 ms backoff precedes attempts 2 and 3, and every attempt
carries its own 12-second timeout — the trace of `get_page_content` is
exactly one of the four shapes below, and in each shape these properties can
be read off.  When every attempt fails the result is `none` (an absent
value, never a raised error), and a category page whose fetch came back
`none` contributes zero records to the Category Crawler and raises
nothing. -/
theorem claim_C5 (oracle : Nat → Option String) :
    ((∃ c, oracle 0 = some c ∧
        get_page_content oracle =
          ([.acquire, .sleep 10, .attempt 0 12000, .release], some c)) ∨
     (∃ c, oracle 0 = none ∧ oracle 1 = some c ∧
        get_page_content oracle =
          ([.acquire, .sleep 10, .attempt 0 12000, .sleep 150,
            .sleep 10, .attempt 1 12000, .release], some c)) ∨
     (∃ c, oracle 0 = none ∧ oracle 1 = none ∧ oracle 2 = some c ∧
        get_page_content oracle =
          ([.acquire, .sleep 10, .attempt 0 12000, .sleep 150,
            .sleep 10, .attempt 1 12000, .sleep 150,
            .sleep 10, .attempt 2 12000, .release], some c)) ∨
     (oracle 0 = none ∧ oracle 1 = none ∧ oracle 2 = none ∧
        get_page_content oracle =
          ([.acquire, .sleep 10, .attempt 0 12000, .sleep 150,
            .sleep 10, .attempt 1 12000, .sleep 150,
            .sleep 10, .attempt 2 12000, .release], none))) ∧
    ((∀ i, oracle i = none) →
      (get_page_content oracle).2 = none ∧
      ∀ (o : RGOracles) (url : String) (page : Nat),
        o.fetch (page_url url page) = none →
          parse_category_page_and_games o url page = []) := by
  constructor
  · cases h0 : oracle 0 with
    | some c =>
      exact Or.inl ⟨c, rfl, by simp [get_page_content, fetch_attempts, h0]⟩
    | none =>
      cases h1 : oracle 1 with
      | some c =>
        exact Or.inr (Or.inl ⟨c, rfl, rfl, by simp [get_page_content, fetch_attempts, h0, h1]⟩)
      | none =>
        cases h2 : oracle 2 with
        | some c =>
          exact Or.inr (Or.inr (Or.inl
            ⟨c, rfl, rfl, rfl, by simp [get_page_content, fetch_attempts, h0, h1, h2]⟩))
        | none =>
          exact Or.inr (Or.inr (Or.inr
            ⟨rfl, rfl, rfl, by simp [get_page_content, fetch_attempts, h0, h1, h2]⟩))
  · intro hall
    constructor
    · simp [get_page_content, fetch_attempts, hall 0, hall 1, hall 2]
    · intro o url page h
      simp [parse_category_page_and_games, h]

/-- Claim C5 witness: at the always-failing oracle the trace is the full
three-attempt shape with result `none`, and the all-fail consequences hold
at the concrete all-fail crawl fixture. -/
theorem claim_C5_witness :
    (get_page_content (fun _ => none)).2 = none ∧
    parse_category_page_and_games oFailFix
      "https://repack-games.com/category/action-games/" 2 = [] := by
  have h := (claim_C5 (fun _ => none)).2 (fun _ => rfl)
  exact ⟨h.1, h.2 oFailFix "https://repack-games.com/category/action-games/" 2 rfl⟩


/- ===================== Claim C3 ===================== -/

/-- Claim C3 counterexample: an AnkerGames leaf whose download link never
appeared yields a record with an empty `uris` list, and that record IS
appended to the final results by the main loop — empty-download records are
not filtered out of AnkerGames output. -/
theorem claim_C3_cex :
    scrape_game dNoLinkFix nowUtcFix "https://a/g" = Except.ok ankerNoLinkItem ∧
    ankerNoLinkItem.uris = [] ∧
    ankerNoLinkItem ∈ anker_collect [Except.ok ankerNoLinkItem] := by
  decide

/-- Claim C3 (amended): in RepackGames a leaf extraction with an empty
download-URI sequence is discarded (`parse_game_info` returns `None`), so
every RepackGames record has non-empty `uris`; in AnkerGames, however, every
successfully scraped item — including one with empty `uris` — reaches the
final output unfiltered. -/
theorem claim_C3_amended :
    (∀ (o : RGOracles) (url : String) (r : Record),
      parse_game_info o url = some r → r.uris ≠ []) ∧
    (∀ (outcomes : List (Except Unit DownloadItem)) (item : DownloadItem),
      Except.ok item ∈ outcomes → item ∈ anker_collect outcomes) := by
  constructor
  · intro o url r h
    unfold parse_game_info at h
    cases hcore : parse_game_info_core o url with
    | error e => rw [hcore] at h; simp at h
    | ok ores =>
      rw [hcore] at h
      simp only [] at h
      subst h
      unfold parse_game_info_core at hcore
      cases hf : o.fetch url with
      | none => rw [hf] at hcore; simp at hcore
      | some html =>
        rw [hf] at hcore
        by_cases hhtml : html = ""
        · simp [hhtml] at hcore
        · simp only [hhtml, if_false, reduceIte] at hcore
          cases hd : parse_date_info (o.parseGame html) o.now with
          | error e => rw [hd] at hcore; simp at hcore
          | ok upload =>
            rw [hd] at hcore
            by_cases hdl : extract_download_links (o.parseGame html).downloadButtons = []
            · simp [hdl] at hcore
            · simp only [hdl, if_false, reduceIte, Except.ok.injEq, Option.some.injEq] at hcore
              rw [← hcore]
              simpa using hdl
  · intro outcomes item hmem
    induction outcomes with
    | nil => cases hmem
    | cons r rest ih =>
      rw [anker_collect_cons]
      rcases List.mem_cons.mp hmem with heq | hmem2
      · rw [← heq]; simp
      · cases r with
        | ok i => simpa using Or.inr (ih hmem2)
        | error e => simpa using ih hmem2

/-- Claim C3 amended-theorem witness: the RepackGames no-date fixture's
record has non-empty `uris`, and a concretely scraped AnkerGames item is in
the collected output. -/
theorem claim_C3_witness :
    recNoDate.uris ≠ [] ∧
    ankerNoLinkItem ∈ anker_collect [Except.ok ankerNoLinkItem] :=
  ⟨claim_C3_amended.1 oNoDateFix "https://r/g" recNoDate (by decide),
   claim_C3_amended.2 [Except.ok ankerNoLinkItem] ankerNoLinkItem (by decide)⟩

/- ===================== Claim C8 ===================== -/

theorem pfs_loop_unres : ∀ ms : List (Option String),
    (∀ x ∈ ms, ∀ s, x = some s → size_clean s = "") → pfs_loop ms = "Unknown" := by
  intro ms
  induction ms with
  | nil => intro _; rfl
  | cons x rest ih =>
    intro h
    cases x with
    | none =>
      simpa [pfs_loop] using ih (fun y hy => h y (List.mem_cons_of_mem _ hy))
    | some g =>
      have hg : size_clean g = "" := h (some g) (List.mem_cons_self _ _) g rfl
      simp only [pfs_loop, hg, ne_eq, not_true_eq_false, if_false, reduceIte]
      exact ih (fun y hy => h y (List.mem_cons_of_mem _ hy))

theorem parse_file_size_unres (gi : Option GameInfoData) (h : size_unresolved gi) :
    parse_file_size (gi.map (fun g => g.sizeMatches)) = "Unknown" := by
  cases gi with
  | none => rfl
  | some g => exact pfs_loop_unres g.sizeMatches h

/-- Claim C8 counterexample: an AnkerGames leaf whose file size could not be
resolved produces a record whose `fileSize` is the empty string — not the
"Unknown" sentinel — and that record reaches the final output. -/
theorem claim_C8_cex :
    scrape_game dNoSizeFix nowUtcFix "https://a/g" = Except.ok ankerNoSizeItem ∧
    ankerNoSizeItem.fileSize = "" ∧
    ankerNoSizeItem.fileSize ≠ "Unknown" ∧
    ankerNoSizeItem ∈ anker_collect [Except.ok ankerNoSizeItem] := by
  decide

/-- Claim C8 (amended): when the file size cannot be resolved from the leaf
page, a RepackGames record carries the sentinel "Unknown", while an
AnkerGames record carries the empty string. -/
theorem claim_C8_amended :
    (∀ (o : RGOracles) (url html : String) (r : Record),
      o.fetch url = some html → html ≠ "" →
      parse_game_info o url = some r →
      size_unresolved ((o.parseGame html).gameInfo) →
      r.fileSize = "Unknown") ∧
    (∀ (d : AnkerLeafData) (now : PyDateTime) (url : String) (item : DownloadItem),
      scrape_game d now url = Except.ok item → d.fileSize = none →
      item.fileSize = "") := by
  constructor
  · intro o url html r hf hhtml h hunres
    unfold parse_game_info at h
    cases hcore : parse_game_info_core o url with
    | error e => rw [hcore] at h; simp at h
    | ok ores =>
      rw [hcore] at h
      simp only [] at h
      subst h
      unfold parse_game_info_core at hcore
      rw [hf] at hcore
      simp only [hhtml, if_false, reduceIte] at hcore
      cases hd : parse_date_info (o.parseGame html) o.now with
      | error e => rw [hd] at hcore; simp at hcore
      | ok upload =>
        rw [hd] at hcore
        by_cases hdl : extract_download_links (o.parseGame html).downloadButtons = []
        · simp [hdl] at hcore
        · simp only [hdl, if_false, reduceIte, Except.ok.injEq, Option.some.injEq] at hcore
          rw [← hcore]
          exact parse_file_size_unres _ hunres
  · intro d now url item h hfs
    unfold scrape_game at h
    cases he : extract_last_updated_iso d now with
    | error e => rw [he] at h; simp at h
    | ok up =>
      rw [he] at h
      simp only [Except.ok.injEq] at h
      rw [← h, hfs]

/-- Claim C8 amended-theorem witness: a RepackGames page with no
`div.game-info` yields the "Unknown" sentinel, and the AnkerGames no-size
fixture yields the empty string. -/
theorem claim_C8_witness :
    recNoDate.fileSize = "Unknown" ∧ ankerNoSizeItem.fileSize = "" :=
  ⟨claim_C8_amended.1 oNoDateFix "https://r/g" "HTML" recNoDate rfl (by decide)
      (by decide) trivial,
   claim_C8_amended.2 dNoSizeFix nowUtcFix "https://a/g" ankerNoSizeItem (by decide) rfl⟩


/- ===================== Claim C7 ===================== -/

theorem digitChar_isDigit (d : Nat) (h : d < 10) : (digitChar d).isDigit = true := by
  interval_cases d <;> decide

theorem padNat_toList (w n : Nat) :
    (padNat w n).toList =
      ((List.range w).reverse).map (fun i => digitChar (n / 10 ^ i % 10)) := rfl

theorem padNat_length (w n : Nat) : (padNat w n).toList.length = w := by
  rw [padNat_toList]; simp

theorem padNat_all_digits (w n : Nat) : ∀ c ∈ (padNat w n).toList, c.isDigit = true := by
  intro c hc
  rw [padNat_toList] at hc
  simp only [List.mem_map] at hc
  obtain ⟨i, _, rfl⟩ := hc
  exact digitChar_isDigit _ (Nat.mod_lt _ (by norm_num))

theorem matchesTmpl_digits (ds : List Char) (hds : ∀ c ∈ ds, c.isDigit = true)
    (t cs : List Char) :
    matchesTmpl (List.replicate ds.length 'n' ++ t) (ds ++ cs) = matchesTmpl t cs := by
  induction ds with
  | nil => rfl
  | cons c ds ih =>
    have hc := hds c (List.mem_cons_self _ _)
    simp only [List.length_cons, List.replicate_succ, List.cons_append, matchesTmpl,
      reduceIte, hc, Bool.true_and]
    exact ih (fun x hx => hds x (List.mem_cons_of_mem _ hx))

theorem matchesTmpl_lit (p : Char) (hp : ¬ p = 'n') (t cs : List Char) :
    matchesTmpl (p :: t) (p :: cs) = matchesTmpl t cs := by
  simp [matchesTmpl, hp]

theorem matchesTmpl_digits_w (w : Nat) (ds : List Char) (hlen : ds.length = w)
    (hds : ∀ c ∈ ds, c.isDigit = true) (t cs : List Char) :
    matchesTmpl (List.replicate w 'n' ++ t) (ds ++ cs) = matchesTmpl t cs := by
  subst hlen
  exact matchesTmpl_digits ds hds t cs

theorem matchesTmpl_iso (a b c d e f : List Char)
    (ha : a.length = 4) (hb : b.length = 2) (hc : c.length = 2) (hd : d.length = 2)
    (he : e.length = 2) (hf : f.length = 2)
    (da : ∀ x ∈ a, x.isDigit = true) (db : ∀ x ∈ b, x.isDigit = true)
    (dc : ∀ x ∈ c, x.isDigit = true) (dd : ∀ x ∈ d, x.isDigit = true)
    (de : ∀ x ∈ e, x.isDigit = true) (df : ∀ x ∈ f, x.isDigit = true) :
    matchesTmpl "nnnn-nn-nnTnn:nn:nn.nnnZ".toList
      (a ++ '-' :: (b ++ '-' :: (c ++ 'T' :: (d ++ ':' :: (e ++ ':' :: (f ++
        ['.', '0', '0', '0', 'Z'])))))) = true := by
  have htmpl : "nnnn-nn-nnTnn:nn:nn.nnnZ".toList =
      List.replicate 4 'n' ++ '-' :: (List.replicate 2 'n' ++ '-' ::
        (List.replicate 2 'n' ++ 'T' :: (List.replicate 2 'n' ++ ':' ::
          (List.replicate 2 'n' ++ ':' :: (List.replicate 2 'n' ++
            ['.', 'n', 'n', 'n', 'Z']))))) := by decide
  rw [htmpl, matchesTmpl_digits_w 4 a ha da, matchesTmpl_lit '-' (by decide),
    matchesTmpl_digits_w 2 b hb db, matchesTmpl_lit '-' (by decide),
    matchesTmpl_digits_w 2 c hc dc, matchesTmpl_lit 'T' (by decide),
    matchesTmpl_digits_w 2 d hd dd, matchesTmpl_lit ':' (by decide),
    matchesTmpl_digits_w 2 e he de, matchesTmpl_lit ':' (by decide),
    matchesTmpl_digits_w 2 f hf df]
  decide

theorem strf_toList (dt : PyDateTime) :
    (strf_iso_ms_z dt).toList =
      (padNat 4 dt.year.toNat).toList ++ '-' :: ((padNat 2 dt.month).toList ++ '-' ::
        ((padNat 2 dt.day).toList ++ 'T' :: ((padNat 2 dt.hour).toList ++ ':' ::
          ((padNat 2 dt.minute).toList ++ ':' :: ((padNat 2 dt.second).toList ++
            ['.', '0', '0', '0', 'Z']))))) := rfl

theorem isIsoUtcMsZ_strf (dt : PyDateTime) : isIsoUtcMsZ (strf_iso_ms_z dt) = true := by
  unfold isIsoUtcMsZ
  rw [strf_toList]
  exact matchesTmpl_iso _ _ _ _ _ _ (padNat_length 4 _) (padNat_length 2 _)
    (padNat_length 2 _) (padNat_length 2 _) (padNat_length 2 _) (padNat_length 2 _)
    (padNat_all_digits 4 _) (padNat_all_digits 2 _) (padNat_all_digits 2 _)
    (padNat_all_digits 2 _) (padNat_all_digits 2 _) (padNat_all_digits 2 _)

theorem subtract_months_fields (dt : PyDateTime) (m : Int) (r : PyDateTime)
    (h : subtract_months dt m = some r) :
    mk_valid r.year r.month r.day ∧ r.hour = dt.hour ∧ r.minute = dt.minute ∧
    r.second = dt.second ∧ r.microsecond = dt.microsecond ∧ r.tzinfo = dt.tzinfo := by
  simp only [subtract_months] at h
  split at h
  · simp at h
  · rename_i max_day hd
    simp only [dt_replace_ymd] at h
    split at h
    · rename_i hvalid
      simp only [Option.some.injEq] at h
      subst h
      exact ⟨hvalid, rfl, rfl, rfl, rfl, rfl⟩
    · simp at h

theorem subtract_months_valid (dt : PyDateTime) (m : Int) (r : PyDateTime)
    (h : subtract_months dt m = some r) (hdt : ValidDT dt) : ValidDT r := by
  obtain ⟨hv, hh, hmi, hs, hus, _⟩ := subtract_months_fields dt m r h
  obtain ⟨v1, v2, v3, v4, v5, v6⟩ := hv
  refine ⟨v1, v2, v3, v4, v5, v6, ?_, ?_, ?_, ?_⟩
  · rw [hh]; exact hdt.2.2.2.2.2.2.1
  · rw [hmi]; exact hdt.2.2.2.2.2.2.2.1
  · rw [hs]; exact hdt.2.2.2.2.2.2.2.2.1
  · rw [hus]; exact hdt.2.2.2.2.2.2.2.2.2

theorem extract_iso_shape (d : AnkerLeafData) (now : PyDateTime) (up : Option String)
    (hv : ValidDT now) (htz : now.tzinfo = some 0)
    (h : extract_last_updated_iso d now = Except.ok up) :
    up = none ∨ ∃ dt2, ValidDT dt2 ∧ up = some (strf_iso_ms_z dt2) := by
  unfold extract_last_updated_iso at h
  cases hlu : d.lastUpdatedMonths with
  | some m =>
    rw [hlu] at h
    simp only [] at h
    cases hs : subtract_months now (m : Int) with
    | none => rw [hs] at h; simp at h
    | some dt2 =>
      rw [hs] at h
      simp only [] at h
      have htz2 : dt2.tzinfo = some 0 := by
        rw [(subtract_months_fields now (m : Int) dt2 hs).2.2.2.2.2, htz]
      unfold to_iso_utc at h
      rw [htz2] at h
      simp only [reduceIte, Except.map, Except.ok.injEq] at h
      exact Or.inr ⟨dt2, subtract_months_valid now (m : Int) dt2 hs hv, h.symm⟩
  | none =>
    rw [hlu] at h
    simp only [] at h
    cases hpu : d.publishedMonths with
    | some m =>
      rw [hpu] at h
      simp only [] at h
      cases hs : subtract_months now (m : Int) with
      | none => rw [hs] at h; simp at h
      | some dt2 =>
        rw [hs] at h
        simp only [] at h
        have htz2 : dt2.tzinfo = some 0 := by
          rw [(subtract_months_fields now (m : Int) dt2 hs).2.2.2.2.2, htz]
        unfold to_iso_utc at h
        rw [htz2] at h
        simp only [reduceIte, Except.map, Except.ok.injEq] at h
        exact Or.inr ⟨dt2, subtract_months_valid now (m : Int) dt2 hs hv, h.symm⟩
    | none =>
      rw [hpu] at h
      simp only [Except.ok.injEq] at h
      exact Or.inl h.symm

theorem parse_date_info_shape (g : GameSoup) (now : PyDateTime) (up : Option String)
    (h : parse_date_info g now = Except.ok up) :
    up = none ∨ ∃ dt2, up = some (isoformat dt2 ++ ".000Z") := by
  unfold parse_date_info at h
  cases hgi : g.gameInfo with
  | some gi =>
    rw [hgi] at h
    simp only [] at h
    cases habs : gi.absDateParsed with
    | some ymd =>
      rw [habs] at h
      simp only [Except.ok.injEq] at h
      exact Or.inr ⟨_, h.symm⟩
    | none =>
      rw [habs] at h
      simp only [] at h
      cases hrel : g.relMatch with
      | none => rw [hrel] at h; simp only [Except.ok.injEq] at h; exact Or.inl h.symm
      | some vu =>
        rw [hrel] at h
        simp only [] at h
        cases hsub : dt_sub now (relDeltaUs vu.1 vu.2) with
        | none => simp [hsub] at h
        | some calcDt =>
          simp only [hsub, Except.ok.injEq] at h
          exact Or.inr ⟨calcDt, h.symm⟩
  | none =>
    rw [hgi] at h
    simp only [] at h
    cases hrel : g.relMatch with
    | none => rw [hrel] at h; simp only [Except.ok.injEq] at h; exact Or.inl h.symm
    | some vu =>
      rw [hrel] at h
      simp only [] at h
      cases hsub : dt_sub now (relDeltaUs vu.1 vu.2) with
      | none => simp [hsub] at h
      | some calcDt =>
        simp only [hsub, Except.ok.injEq] at h
        exact Or.inr ⟨calcDt, h.symm⟩

/-- Claim C7 counterexample: a RepackGames leaf with no date information
produces a record whose `uploadDate` is `None` (JSON null), and that record
reaches the final output; and a leaf whose only date is relative ("2 seconds
ago") at a wall clock with nonzero microseconds produces the string
"2026-10-12T10:00:28.123456.000Z" — two fractional parts, not an ISO-8601
millisecond-precision Z timestamp. -/
theorem claim_C7_cex :
    parse_game_info oNoDateFix "https://r/g" = some recNoDate ∧
    recNoDate.uploadDate = none ∧
    recNoDate ∈ parse_all_categories_collect [Except.ok [recNoDate]] ∧
    parse_game_info oRelFix "https://r/g" = some recRel ∧
    recRel.uploadDate = some "2026-10-12T10:00:28.123456.000Z" ∧
    isIsoUtcMsZ "2026-10-12T10:00:28.123456.000Z" = false := by
  decide

/-- Claim C7 (amended): in AnkerGames every scraped record's `uploadDate` is
either the empty string or an ISO-8601 UTC millisecond-precision Z string;
in RepackGames a record's `uploadDate` is `None` (null) when the date could
not be determined, and otherwise a string of the form
`isoformat(dt) + ".000Z"` — which carries an extra microseconds component
(and so is not millisecond-precision ISO) whenever the datetime came from
the relative-date fallback at a clock instant with nonzero microseconds. -/
theorem claim_C7_amended :
    (∀ (o : RGOracles) (url : String) (r : Record),
      parse_game_info o url = some r →
      r.uploadDate = none ∨ ∃ dt2, r.uploadDate = some (isoformat dt2 ++ ".000Z")) ∧
    (∀ (d : AnkerLeafData) (now : PyDateTime) (url : String) (item : DownloadItem),
      ValidDT now → now.tzinfo = some 0 →
      scrape_game d now url = Except.ok item →
      item.uploadDate = "" ∨ isIsoUtcMsZ item.uploadDate = true) := by
  constructor
  · intro o url r h
    unfold parse_game_info at h
    cases hcore : parse_game_info_core o url with
    | error e => rw [hcore] at h; simp at h
    | ok ores =>
      rw [hcore] at h
      simp only [] at h
      subst h
      unfold parse_game_info_core at hcore
      cases hf : o.fetch url with
      | none => rw [hf] at hcore; simp at hcore
      | some html =>
        rw [hf] at hcore
        by_cases hhtml : html = ""
        · simp [hhtml] at hcore
        · simp only [hhtml, if_false, reduceIte] at hcore
          cases hd : parse_date_info (o.parseGame html) o.now with
          | error e => rw [hd] at hcore; simp at hcore
          | ok upload =>
            rw [hd] at hcore
            by_cases hdl : extract_download_links (o.parseGame html).downloadButtons = []
            · simp [hdl] at hcore
            · simp only [hdl, if_false, reduceIte, Except.ok.injEq, Option.some.injEq] at hcore
              rw [← hcore]
              exact parse_date_info_shape (o.parseGame html) o.now upload hd
  · intro d now url item hv htz h
    unfold scrape_game at h
    cases he : extract_last_updated_iso d now with
    | error e => rw [he] at h; simp at h
    | ok up =>
      rw [he] at h
      simp only [Except.ok.injEq] at h
      rw [← h]
      rcases extract_iso_shape d now up hv htz he with rfl | ⟨dt2, hvdt2, rfl⟩
      · exact Or.inl rfl
      · by_cases hz : strf_iso_ms_z dt2 = ""
        · simp only [hz, reduceIte]
          exact Or.inl trivial
        · simp only [hz, if_false, reduceIte]
          exact Or.inr (isIsoUtcMsZ_strf dt2)

/-- Claim C7 amended-theorem witness at the no-date RepackGames fixture and
the no-link AnkerGames fixture. -/
theorem claim_C7_witness :
    (recNoDate.uploadDate = none ∨
      ∃ dt2, recNoDate.uploadDate = some (isoformat dt2 ++ ".000Z")) ∧
    (ankerNoLinkItem.uploadDate = "" ∨ isIsoUtcMsZ ankerNoLinkItem.uploadDate = true) :=
  ⟨claim_C7_amended.1 oNoDateFix "https://r/g" recNoDate (by decide),
   claim_C7_amended.2 dNoLinkFix nowUtcFix "https://a/g" ankerNoLinkItem
     (by decide) rfl (by decide)⟩


/- ===================== Claim C10 ===================== -/

theorem days_in_month_src_eq_tbl (y : Int) (m : Nat) (n : Int)
    (h : _days_in_month y m = some n) : n = days_in_month_tbl y m := by
  unfold _days_in_month at h
  by_cases hm : m = 12
  · subst hm
    rw [if_pos rfl] at h
    split at h
    · simp only [Option.some.injEq] at h
      simp [toordinal, days_before_year, days_before_month, dbm_base,
        days_in_month_tbl, isLeap, add_sub_cancel_right] at h ⊢
      omega
    · simp at h
  · rw [if_neg hm] at h
    split at h
    · rename_i hval
      have hm1 : 1 ≤ m := hval.2.2.2.1
      have hm2 : m ≤ 11 := by
        have := hval.1.2.2.2.1
        omega
      simp only [Option.some.injEq] at h
      interval_cases m <;>
        simp [toordinal, days_before_year, days_before_month, dbm_base,
          days_in_month_tbl, isLeap, add_sub_cancel_right] at h ⊢ <;>
        omega
    · simp at h

/-- Claim C10 counterexample: `subtract_months` applied to the perfectly
valid datetime 9999-12-15 with `months = 0` raises ValueError (its
`_days_in_month` helper constructs `datetime(10000, 1, 1)`), so it does not
return a datetime for every input datetime and non-negative month count. -/
theorem claim_C10_cex :
    ValidDT dt9999Fix ∧ subtract_months dt9999Fix 0 = none := by
  decide

/-- Claim C10 (amended): whenever `subtract_months dt m` returns a datetime
(it raises when the computed year leaves `datetime`'s supported range), the
result's absolute month index `year*12 + (month-1)` is exactly `m` less than
`dt`'s, its day is `min dt.day (number of days in the resulting month)`, and
the time-of-day fields and tzinfo are unchanged. -/
theorem claim_C10_amended (dt : PyDateTime) (m : Int) (r : PyDateTime)
    (h : subtract_months dt m = some r) :
    12 * r.year + ((r.month : Int) - 1) = 12 * dt.year + ((dt.month : Int) - 1) - m ∧
    (r.day : Int) = min (dt.day : Int) (days_in_month_tbl r.year r.month) ∧
    r.hour = dt.hour ∧ r.minute = dt.minute ∧ r.second = dt.second ∧
    r.microsecond = dt.microsecond ∧ r.tzinfo = dt.tzinfo := by
  simp only [subtract_months] at h
  split at h
  · simp at h
  · rename_i max_day hd
    simp only [dt_replace_ymd] at h
    split at h
    · rename_i hval
      simp only [Option.some.injEq] at h
      subst h
      have htbl := days_in_month_src_eq_tbl _ _ _ hd
      have hd5 : 1 ≤ min dt.day max_day.toNat := hval.2.2.2.2.1
      have hmaxnat : 1 ≤ max_day.toNat := (Nat.le_min.mp hd5).2
      have hmax : 0 ≤ max_day := by omega
      refine ⟨?_, ?_, rfl, rfl, rfl, rfl, rfl⟩
      · simp only []
        omega
      · simp only []
        rw [← htbl]
        omega
    · simp at h

/-- Claim C10 amended-theorem witness: subtracting 6 months from
2026-10-12 01:02:03.000004 UTC gives 2026-04-12 with the same time of day. -/
theorem claim_C10_witness :
    12 * dtC10Res.year + ((dtC10Res.month : Int) - 1) =
      12 * dtC10Fix.year + ((dtC10Fix.month : Int) - 1) - 6 ∧
    (dtC10Res.day : Int) =
      min (dtC10Fix.day : Int) (days_in_month_tbl dtC10Res.year dtC10Res.month) ∧
    dtC10Res.hour = dtC10Fix.hour ∧ dtC10Res.minute = dtC10Fix.minute ∧
    dtC10Res.second = dtC10Fix.second ∧
    dtC10Res.microsecond = dtC10Fix.microsecond ∧
    dtC10Res.tzinfo = dtC10Fix.tzinfo :=
  claim_C10_amended dtC10Fix 6 dtC10Res (by decide)


end Scrapers
